import Mathlib

/-
Verification of the quantum-object model of a browser 3D game:
a shallow embedding of `QuantumSystem` / `QuantumObject` (src/js/quantum.js)
and of the `QuantumObstacle` / `QuantumHazard` subclasses (src/js/objects.js).

Modelling conventions:
* JS numbers are rationals (`ℚ`); `Math.sin` / `Math.cos` are abstract
  functions carried in a `TrigCtx`, so every statement is parametric in the
  host's (deterministic) implementation.  Euclidean distances
  (`THREE.Vector3.distanceTo`) appear only inside propositions, as
  `Real.sqrt` of the rational squared distance.
* `Math.random()` draws are explicit parameters of the operations that
  sample them.
* Calls to collaborators (particle sink, score sink) are recorded in an
  explicit effect list; a collaborator that can throw
  (`game.particles.createCollapseEffect`) is modelled by a `pThrow` flag,
  and a thrown error is an `Except.error` carrying the exit state at the
  throw point (JS mutations before the throw persist).
* DOM / UI / rendering updates (energy bar, status text, shader uniforms,
  mesh colors) are out of scope, as the spec declares.
-/

/-- A 3D point with rational coordinates (models `THREE.Vector3`). -/
structure Vec3 where
  x : ℚ
  y : ℚ
  z : ℚ
deriving DecidableEq

/-- Squared Euclidean distance; `THREE.Vector3.distanceTo` is the real
square root of this quantity. -/
def Vec3.sqDist (a b : Vec3) : ℚ :=
  (a.x - b.x) ^ 2 + (a.y - b.y) ^ 2 + (a.z - b.z) ^ 2

/-- Abstract trigonometric primitives standing for `Math.sin` / `Math.cos`. -/
structure TrigCtx where
  sin : ℚ → ℚ
  cos : ℚ → ℚ

/-- One side-effect request a quantum object sends a collaborator:
`game.particles.createCollapseEffect(position)` or `game.updateScore(points)`. -/
inductive Effect where
  | collapseParticle (pos : Vec3)
  | score (points : ℤ)
deriving DecidableEq

/-- State of one `QuantumObject` (src/js/quantum.js, class QuantumObject).
`observedState = none` is the superposition; `some 0` / `some 1` are the
collapsed states.  `meshScale` / `meshOpacity` model the visual state that
`updateVisualState` writes (uniform scale; material opacity). -/
structure ObjState where
  position : Vec3
  size : Vec3
  observedState : Option ℕ
  superpositionFactor : ℚ
  collapseProbability : ℚ
  meshScale : ℚ
  meshOpacity : ℚ
deriving DecidableEq

/-- The `QuantumObject` constructor: superposed, random starting phase `r`
(the `Math.random()` draw), default 50/50 collapse chance. -/
def mkQuantumObject (position size : Vec3) (r : ℚ) : ObjState :=
  { position := position
    size := size
    observedState := none
    superpositionFactor := r
    collapseProbability := 0.5
    meshScale := 1
    meshOpacity := 1 }

/-- Method `QuantumSystem.getWaveFunction(position, time)` (quantum.js line 121). -/
def QuantumSystem.getWaveFunction (ctx : TrigCtx) (position : Vec3) (time : ℚ) : ℚ :=
  ctx.sin (position.x * 0.1 + position.y * 0.1 + position.z * 0.1 + time * 2) * 0.5 + 0.5

/-- Method `QuantumSystem.getSuperpositionState(position, time)` (quantum.js line 127). -/
def QuantumSystem.getSuperpositionState (ctx : TrigCtx) (position : Vec3) (time : ℚ) : ℚ :=
  let state1 := ctx.sin (position.x * 0.2 + time * 1.5) * 0.5 + 0.5
  let state2 := ctx.cos (position.z * 0.3 + time * 2.0) * 0.5 + 0.5
  let state3 := ctx.sin (position.y * 0.25 + time * 1.0) * 0.5 + 0.5
  state1 * 0.4 + state2 * 0.3 + state3 * 0.3

/-- Method `QuantumObject.updateVisualState()` (quantum.js line 265): flickering
scale/opacity from the superposition factor while superposed, fixed terminal
scale (1.2 for state 1, 0.8 for state 0) and opacity 0.9 once collapsed. -/
def QuantumObject.updateVisualState (o : ObjState) : ObjState :=
  match o.observedState with
  | none =>
      { o with
        meshScale := 0.8 + o.superpositionFactor * 0.4
        meshOpacity := 0.4 + o.superpositionFactor * 0.4 }
  | some s =>
      { o with
        meshScale := if s = 1 then 1.2 else 0.8
        meshOpacity := 0.9 }

/-- Method `QuantumObject.updateQuantumState(delta, time)` (quantum.js line 252):
early return if collapsed, otherwise recompute the superposition factor from
`getSuperpositionState` and refresh the visual state. -/
def QuantumObject.updateQuantumState (ctx : TrigCtx) (delta time : ℚ) (o : ObjState) : ObjState :=
  if o.observedState ≠ none then o
  else
    QuantumObject.updateVisualState
      { o with superpositionFactor := QuantumSystem.getSuperpositionState ctx o.position time }

/-- Result of `QuantumObject.collapse`: the object's state at exit, the
collaborator requests issued, and either the returned state (`Except.ok`)
or the error thrown by a collaborator (`Except.error`). -/
structure CollapseResult where
  state : ObjState
  effects : List Effect
  outcome : Except String ℕ

/-- Method `QuantumObject.collapse(forcedState)` (quantum.js line 293): set
`observedState` to the forced state, or draw `r` against
`collapseProbability`; refresh visuals; then request one particle effect at
the object's position and one 10-point score increment.  When the particle
collaborator throws (`pThrow`), the state mutations stand, no score request
is made, and the error propagates as the outcome. -/
def QuantumObject.collapse (forcedState : Option ℕ) (r : ℚ) (pThrow : Bool)
    (o : ObjState) : CollapseResult :=
  let st :=
    match forcedState with
    | some v => v
    | none => if r < o.collapseProbability then 1 else 0
  let o1 := QuantumObject.updateVisualState { o with observedState := some st }
  if pThrow then
    { state := o1, effects := [], outcome := Except.error "createCollapseEffect failed" }
  else
    { state := o1
      effects := [Effect.collapseParticle o1.position, Effect.score 10]
      outcome := Except.ok st }

/-- Result of `QuantumObject.setObserverMode`: the object's state, the
effects issued, and the console-error log (always a normal return — the
try/catch never lets a collapse failure escape). -/
structure ObserverResult where
  state : ObjState
  effects : List Effect
  logs : List String
deriving DecidableEq

/-- Method `QuantumObject.setObserverMode(isObserverMode)` (quantum.js line 314):
when observer mode turns on and the object is still superposed, a 30% roll
forces an unforced collapse, wrapped in try/catch that logs and swallows
any error. -/
def QuantumObject.setObserverMode (isObserverMode : Bool) (roll r : ℚ) (pThrow : Bool)
    (o : ObjState) : ObserverResult :=
  if isObserverMode ∧ o.observedState = none then
    if roll < 0.3 then
      let c := QuantumObject.collapse none r pThrow o
      match c.outcome with
      | Except.ok _ => { state := c.state, effects := c.effects, logs := [] }
      | Except.error e =>
          { state := c.state, effects := c.effects
            logs := ["Error collapsing quantum object: " ++ e] }
    else { state := o, effects := [], logs := [] }
  else { state := o, effects := [], logs := [] }

/-- A registry entry: a live object with its identity (JS object reference,
compared by `===` in `indexOf`). -/
structure QObj where
  id : ℕ
  state : ObjState
deriving DecidableEq

/-- State of the `QuantumSystem` (quantum.js line 2). -/
structure SysState where
  observerMode : Bool
  currentEnergy : ℚ
  observerModeEnergy : ℚ
  energyDrainRate : ℚ
  energyRechargeRate : ℚ
  quantumObjects : List QObj
deriving DecidableEq

/-- The `QuantumSystem` constructor defaults: energy 100 of max 100,
drain 15/s, recharge 8/s, observer mode off, empty registry. -/
def mkQuantumSystem : SysState :=
  { observerMode := false
    currentEnergy := 100
    observerModeEnergy := 100
    energyDrainRate := 15
    energyRechargeRate := 8
    quantumObjects := [] }

/-- Result of a `QuantumSystem` operation: the new system state, the
`setObserverMode` calls issued to registered objects (in order), and the
accumulated effects and logs of those calls. -/
structure SysResult where
  sys : SysState
  calls : List (ℕ × Bool)
  effects : List Effect
  logs : List String

/-- Result of the registry broadcast loop. -/
structure BroadcastResult where
  objs : List QObj
  calls : List (ℕ × Bool)
  effects : List Effect
  logs : List String

/-- The broadcast loop of `toggleObserverMode` (quantum.js lines 93-99):
`quantumObjects.forEach(obj => obj.setObserverMode(observerMode))`,
synchronously in registry order; `draws n` are the `Math.random()` samples
the n-th object's call consumes. -/
def broadcastObserverMode (active : Bool) (pThrow : Bool) :
    List QObj → (ℕ → ℚ × ℚ) → BroadcastResult
  | [], _ => { objs := [], calls := [], effects := [], logs := [] }
  | o :: rest, draws =>
      let r := QuantumObject.setObserverMode active (draws 0).1 (draws 0).2 pThrow o.state
      let b := broadcastObserverMode active pThrow rest (fun n => draws (n + 1))
      { objs := { id := o.id, state := r.state } :: b.objs
        calls := (o.id, active) :: b.calls
        effects := r.effects ++ b.effects
        logs := r.logs ++ b.logs }

/-- Method `QuantumSystem.toggleObserverMode(forceState)` (quantum.js line 72):
an explicit forced state is set directly; with no argument the call refuses
to turn ON with no energy (early return, nothing broadcast), otherwise flips
the mode; then the broadcast loop runs with the new mode. -/
def QuantumSystem.toggleObserverMode (forceState : Option Bool) (pThrow : Bool)
    (draws : ℕ → ℚ × ℚ) (s : SysState) : SysResult :=
  match forceState with
  | some b =>
      let s1 := { s with observerMode := b }
      let b1 := broadcastObserverMode b pThrow s1.quantumObjects draws
      { sys := { s1 with quantumObjects := b1.objs }
        calls := b1.calls, effects := b1.effects, logs := b1.logs }
  | none =>
      if s.observerMode = false ∧ s.currentEnergy ≤ 0 then
        { sys := s, calls := [], effects := [], logs := [] }
      else
        let s1 := { s with observerMode := !s.observerMode }
        let b1 := broadcastObserverMode s1.observerMode pThrow s1.quantumObjects draws
        { sys := { s1 with quantumObjects := b1.objs }
          calls := b1.calls, effects := b1.effects, logs := b1.logs }

/-- Method `QuantumSystem.handleObserverModeEnergy(delta)` (quantum.js line 51):
drain clamped at 0 while observer mode is on, with a forced
`toggleObserverMode(false)` when the energy is depleted; recharge clamped at
`observerModeEnergy` while off. -/
def QuantumSystem.handleObserverModeEnergy (delta : ℚ) (pThrow : Bool)
    (draws : ℕ → ℚ × ℚ) (s : SysState) : SysResult :=
  if s.observerMode then
    let s1 := { s with currentEnergy := max 0 (s.currentEnergy - s.energyDrainRate * delta) }
    if s1.currentEnergy ≤ 0 then
      QuantumSystem.toggleObserverMode (some false) pThrow draws s1
    else { sys := s1, calls := [], effects := [], logs := [] }
  else
    { sys :=
        { s with
          currentEnergy :=
            min s.observerModeEnergy (s.currentEnergy + s.energyRechargeRate * delta) }
      calls := [], effects := [], logs := [] }

/-- Operation `Array.prototype.indexOf` on the registry (reference equality modelled
by object id): index of the first occurrence, `none` for -1. -/
def indexOfId (x : ℕ) : List QObj → Option ℕ
  | [] => none
  | o :: rest => if o.id = x then some 0 else Option.map (fun n => n + 1) (indexOfId x rest)

/-- Number of occurrences of object `x` in the registry. -/
def countId (x : ℕ) : List QObj → ℕ
  | [] => 0
  | o :: rest => (if o.id = x then 1 else 0) + countId x rest

/-- Method `QuantumSystem.registerQuantumObject(object)` (quantum.js line 109):
`push` appends at the end. -/
def QuantumSystem.registerQuantumObject (o : QObj) (s : SysState) : SysState :=
  { s with quantumObjects := s.quantumObjects ++ [o] }

/-- Method `QuantumSystem.unregisterQuantumObject(object)` (quantum.js line 113):
`indexOf`, and `splice(index, 1)` only when the index is not -1. -/
def QuantumSystem.unregisterQuantumObject (x : ℕ) (s : SysState) : SysState :=
  match indexOfId x s.quantumObjects with
  | none => s
  | some i => { s with quantumObjects := s.quantumObjects.eraseIdx i }

/-- Method `QuantumSystem.getWaveFunction` as the state transformer it is: a state
transformer on the system (it reads and writes none of it). -/
def QuantumSystem.getWaveFunctionS (ctx : TrigCtx) (s : SysState) (position : Vec3)
    (time : ℚ) : SysState × ℚ :=
  (s, QuantumSystem.getWaveFunction ctx position time)

/-- Method `QuantumSystem.getSuperpositionState` as a state transformer on the
system (it reads and writes none of it). -/
def QuantumSystem.getSuperpositionStateS (ctx : TrigCtx) (s : SysState) (position : Vec3)
    (time : ℚ) : SysState × ℚ :=
  (s, QuantumSystem.getSuperpositionState ctx position time)

/-- State of a `QuantumObstacle` (objects.js line 1310).  The JS constructor
never initialises `isHarmful`; it is `undefined` (`none`) until the first
collapse writes it. -/
structure ObstacleState where
  core : ObjState
  isHarmful : Option Bool
deriving DecidableEq

/-- The `QuantumObstacle` constructor: cubical size, collapse probability
lowered to 0.3, `isHarmful` not yet set. -/
def mkQuantumObstacle (position : Vec3) (size : ℚ) (r : ℚ) : ObstacleState :=
  { core := { mkQuantumObject position { x := size, y := size, z := size } r with
              collapseProbability := 0.3 }
    isHarmful := none }

/-- Result of `QuantumObstacle.collapse`. -/
structure ObstacleCollapseResult where
  state : ObstacleState
  effects : List Effect
  outcome : Except String ℕ

/-- Method `QuantumObstacle.collapse(forcedState)` (objects.js line 1340): the base
collapse, then `isHarmful` set to whether the resolved state is 1.  If the
base collapse throws, the subclass body never runs and `isHarmful` keeps its
previous value. -/
def QuantumObstacle.collapse (forcedState : Option ℕ) (r : ℚ) (pThrow : Bool)
    (ob : ObstacleState) : ObstacleCollapseResult :=
  let c := QuantumObject.collapse forcedState r pThrow ob.core
  match c.outcome with
  | Except.error e =>
      { state := { core := c.state, isHarmful := ob.isHarmful }
        effects := c.effects, outcome := Except.error e }
  | Except.ok st =>
      { state :=
          { core := c.state
            isHarmful := if st = 1 then some true else some false }
        effects := c.effects, outcome := Except.ok st }

/-- Method `QuantumObstacle.checkPlayerCollision(playerPosition, playerRadius)`
(objects.js line 1363): false unless collapsed to state 1, else a strict
comparison of the distance with `size.x / 2 + playerRadius`. -/
def QuantumObstacle.checkPlayerCollision (ob : ObstacleState) (playerPosition : Vec3)
    (playerRadius : ℚ) : Prop :=
  ob.core.observedState = some 1 ∧
    Real.sqrt ((Vec3.sqDist ob.core.position playerPosition : ℚ) : ℝ)
      < ((ob.core.size.x / 2 + playerRadius : ℚ) : ℝ)

/-- Method `QuantumObstacle.checkPlayerCollision` as the state transformer it is: a state
transformer on the obstacle (it mutates nothing). -/
def QuantumObstacle.checkPlayerCollisionS (ob : ObstacleState) (playerPosition : Vec3)
    (playerRadius : ℚ) : ObstacleState × Prop :=
  (ob, QuantumObstacle.checkPlayerCollision ob playerPosition playerRadius)

/-- State of a `QuantumHazard` (objects.js line 291). -/
structure HazardState where
  core : ObjState
  damage : ℚ
  isHarmful : Bool
deriving DecidableEq

/-- The `QuantumHazard` constructor (objects.js lines 292-325): cubical
size, `damage = 20`, `isHarmful = true` from construction, collapse
probability raised to 0.7. -/
def mkQuantumHazard (position : Vec3) (size : ℚ) (r : ℚ) : HazardState :=
  { core := { mkQuantumObject position { x := size, y := size, z := size } r with
              collapseProbability := 0.7 }
    damage := 20
    isHarmful := true }

/-- Method `QuantumHazard.checkPlayerCollision(playerPosition, playerRadius)`
(objects.js line 351): false unless `isHarmful`, else a strict comparison of
the distance with `size.x / 2 + playerRadius`. -/
def QuantumHazard.checkPlayerCollision (hz : HazardState) (playerPosition : Vec3)
    (playerRadius : ℚ) : Prop :=
  hz.isHarmful = true ∧
    Real.sqrt ((Vec3.sqDist hz.core.position playerPosition : ℚ) : ℝ)
      < ((hz.core.size.x / 2 + playerRadius : ℚ) : ℝ)

/-- The operations a live `QuantumObject` is subject to, for lifetime
statements about `observedState`. -/
inductive QOp where
  | collapseOp (forcedState : Option ℕ) (r : ℚ) (pThrow : Bool)
  | updateOp (ctx : TrigCtx) (delta time : ℚ)
  | observerOp (active : Bool) (roll r : ℚ) (pThrow : Bool)
  | visualOp

/-- Whether the operation is a direct `collapse` call. -/
def QOp.isCollapse : QOp → Bool
  | .collapseOp _ _ _ => true
  | _ => false

/-- The state an operation leaves the object in. -/
def applyOp : QOp → ObjState → ObjState
  | .collapseOp forced r p, o => (QuantumObject.collapse forced r p o).state
  | .updateOp ctx delta time, o => QuantumObject.updateQuantumState ctx delta time o
  | .observerOp a roll r p, o => (QuantumObject.setObserverMode a roll r p o).state
  | .visualOp, o => QuantumObject.updateVisualState o

/-! ## Helper lemmas -/

@[simp] lemma updateVisualState_observedState (o : ObjState) :
    (QuantumObject.updateVisualState o).observedState = o.observedState := by
  rcases o with ⟨p, sz, os, spf, cp, ms, mo⟩
  cases os <;> rfl

lemma toggleObserverMode_force_currentEnergy (b : Bool) (pThrow : Bool)
    (draws : ℕ → ℚ × ℚ) (s : SysState) :
    (QuantumSystem.toggleObserverMode (some b) pThrow draws s).sys.currentEnergy =
      s.currentEnergy := rfl

lemma toggleObserverMode_force_observerMode (b : Bool) (pThrow : Bool)
    (draws : ℕ → ℚ × ℚ) (s : SysState) :
    (QuantumSystem.toggleObserverMode (some b) pThrow draws s).sys.observerMode = b := rfl

lemma broadcastObserverMode_calls (active pThrow : Bool) :
    ∀ (draws : ℕ → ℚ × ℚ) (objs : List QObj),
      (broadcastObserverMode active pThrow objs draws).calls =
        objs.map fun o => (o.id, active) := by
  intro draws objs
  induction objs generalizing draws with
  | nil => rfl
  | cons o rest ih => simp [broadcastObserverMode, ih]

lemma broadcastObserverMode_objs_length (active pThrow : Bool) :
    ∀ (draws : ℕ → ℚ × ℚ) (objs : List QObj),
      (broadcastObserverMode active pThrow objs draws).objs.length = objs.length := by
  intro draws objs
  induction objs generalizing draws with
  | nil => rfl
  | cons o rest ih => simp [broadcastObserverMode, ih]

lemma indexOfId_eq_none_of_absent (x : ℕ) :
    ∀ l : List QObj, (∀ o ∈ l, o.id ≠ x) → indexOfId x l = none := by
  intro l
  induction l with
  | nil => intro _; rfl
  | cons o rest ih =>
      intro h
      have hne : o.id ≠ x := h o (by simp)
      simp [indexOfId, hne, ih fun p hp => h p (by simp [hp])]

lemma countId_zero_iff (x : ℕ) (l : List QObj) :
    countId x l = 0 ↔ indexOfId x l = none := by
  induction l with
  | nil => simp [countId, indexOfId]
  | cons o rest ih =>
      by_cases hx : o.id = x
      · simp [countId, indexOfId, hx]
      · simp [countId, indexOfId, hx, ih, Option.map_eq_none']

lemma countId_eraseIdx (x : ℕ) :
    ∀ (l : List QObj) (i : ℕ), indexOfId x l = some i →
      countId x (l.eraseIdx i) + 1 = countId x l := by
  intro l
  induction l with
  | nil => intro i h; simp [indexOfId] at h
  | cons o rest ih =>
      intro i h
      by_cases hx : o.id = x
      · simp [indexOfId, hx] at h
        subst h
        simp [List.eraseIdx, countId, hx, Nat.add_comm]
      · simp [indexOfId, hx, Option.map_eq_some'] at h
        obtain ⟨j, hj, hji⟩ := h
        subst hji
        simp [List.eraseIdx, countId, hx]
        exact ih j hj

lemma indexOfId_append_middle (x : ℕ) :
    ∀ (pre : List QObj) (o : QObj) (post : List QObj), o.id = x →
      (∀ p ∈ pre, p.id ≠ x) →
      indexOfId x (pre ++ o :: post) = some pre.length := by
  intro pre
  induction pre with
  | nil => intro o post ho _; simp [indexOfId, ho]
  | cons p rest ih =>
      intro o post ho h
      have hne : p.id ≠ x := h p (by simp)
      simp [indexOfId, hne, ih o post ho fun q hq => h q (by simp [hq])]

lemma eraseIdx_append_middle :
    ∀ (pre : List QObj) (o : QObj) (post : List QObj),
      (pre ++ o :: post).eraseIdx pre.length = pre ++ post := by
  intro pre
  induction pre with
  | nil => intro o post; rfl
  | cons p rest ih => intro o post; simp [List.eraseIdx, ih o post]

/-- Fixed interpretation of the trig primitives used by concrete witnesses. -/
def ctx0 : TrigCtx := { sin := fun _ => 0, cos := fun _ => 0 }

/-- Fixed draw stream used by concrete witnesses. -/
def drawsZero : ℕ → ℚ × ℚ := fun _ => (0, 0)

/-- A freshly constructed object at the origin. -/
def sampleObj : ObjState :=
  mkQuantumObject { x := 0, y := 0, z := 0 } { x := 1, y := 1, z := 1 } 0

/-- The sample object after a forced collapse to state 1. -/
def sampleCollapsed : ObjState := (QuantumObject.collapse (some 1) 0 false sampleObj).state

/-! ## Claim theorems -/

/-- C1 (counterexample): the claim's "transitions to Collapsed(x) exactly once
... never changes to a different collapsed value" is false as stated: the
base `collapse` does not guard against double invocation, so a second forced
collapse overwrites `Collapsed(1)` with `Collapsed(0)`. -/
theorem double_collapse_changes_observedState :
    sampleCollapsed.observedState = some 1 ∧
    (QuantumObject.collapse (some 0) 0 false sampleCollapsed).state.observedState = some 0 ∧
    (QuantumObject.collapse (some 0) 0 false sampleCollapsed).state.observedState ≠ some 1 := by
  refine ⟨rfl, rfl, by decide⟩

/-- C1 (amended): `observedState` starts Superposed; once collapsed it never
returns to Superposed under any operation, and every operation other than a
further direct `collapse` call leaves the collapsed value unchanged (a second
`collapse` call can overwrite it, so callers must guard). -/
theorem observedState_irreversible_amended (position size : Vec3) (r0 : ℚ)
    (o : ObjState) (op : QOp) (h : o.observedState ≠ none) :
    (mkQuantumObject position size r0).observedState = none ∧
    (applyOp op o).observedState ≠ none ∧
    (QOp.isCollapse op = false → (applyOp op o).observedState = o.observedState) := by
  refine ⟨rfl, ?_, ?_⟩
  · cases op with
    | collapseOp forced r p =>
        cases p <;> simp [applyOp, QuantumObject.collapse]
    | updateOp ctx d t => simp [applyOp, QuantumObject.updateQuantumState, h]
    | observerOp a roll r p => simp [applyOp, QuantumObject.setObserverMode, h]
    | visualOp => simp [applyOp, h]
  · intro hnc
    cases op with
    | collapseOp forced r p => simp [QOp.isCollapse] at hnc
    | updateOp ctx d t => simp [applyOp, QuantumObject.updateQuantumState, h]
    | observerOp a roll r p => simp [applyOp, QuantumObject.setObserverMode, h]
    | visualOp => simp [applyOp]

/-- C1 (witness): the amended theorem applied to a concrete collapsed object
and a concrete non-collapse operation. -/
theorem observedState_irreversible_amended_witness :
    (mkQuantumObject { x := 0, y := 0, z := 0 } { x := 1, y := 1, z := 1 } 0).observedState
        = none ∧
    (applyOp QOp.visualOp sampleCollapsed).observedState ≠ none ∧
    (QOp.isCollapse QOp.visualOp = false →
      (applyOp QOp.visualOp sampleCollapsed).observedState = sampleCollapsed.observedState) :=
  observedState_irreversible_amended { x := 0, y := 0, z := 0 } { x := 1, y := 1, z := 1 } 0
    sampleCollapsed QOp.visualOp (by decide)

/-- C2: calling `collapse(forcedState = 1)` sets and returns `observedState = 1` and
issues exactly one particle-effect request, at the object's position, and
exactly one score increment of 10 points. -/
theorem collapse_forcedOne_effects (o : ObjState) (r : ℚ) :
    (QuantumObject.collapse (some 1) r false o).state.observedState = some 1 ∧
    (QuantumObject.collapse (some 1) r false o).outcome = Except.ok 1 ∧
    (QuantumObject.collapse (some 1) r false o).effects =
      [Effect.collapseParticle o.position, Effect.score 10] := by
  exact ⟨rfl, rfl, rfl⟩

/-- C5: the helpers `getWaveFunction` and `getSuperpositionState` are pure, deterministic
and side-effect free: as method calls they leave the system state unchanged,
and their value depends only on `(position, time)` (and the host's fixed trig
primitives), not on the system state. -/
theorem getWaveFunction_getSuperpositionState_pure (ctx : TrigCtx) (s1 s2 : SysState)
    (p : Vec3) (t : ℚ) :
    (QuantumSystem.getWaveFunctionS ctx s1 p t).2 = (QuantumSystem.getWaveFunctionS ctx s2 p t).2 ∧
    (QuantumSystem.getWaveFunctionS ctx s1 p t).1 = s1 ∧
    (QuantumSystem.getSuperpositionStateS ctx s1 p t).2 =
      (QuantumSystem.getSuperpositionStateS ctx s2 p t).2 ∧
    (QuantumSystem.getSuperpositionStateS ctx s1 p t).1 = s1 :=
  ⟨rfl, rfl, rfl, rfl⟩

/-- C6: once the object is collapsed, `updateQuantumState` is a no-op: it
returns the state unchanged, in particular it alters neither `observedState`
nor `superpositionFactor`. -/
theorem updateQuantumState_noop_after_collapse (ctx : TrigCtx) (delta time : ℚ)
    (o : ObjState) (h : o.observedState ≠ none) :
    QuantumObject.updateQuantumState ctx delta time o = o ∧
    (QuantumObject.updateQuantumState ctx delta time o).observedState = o.observedState ∧
    (QuantumObject.updateQuantumState ctx delta time o).superpositionFactor =
      o.superpositionFactor := by
  have e : QuantumObject.updateQuantumState ctx delta time o = o := by
    simp [QuantumObject.updateQuantumState, h]
  exact ⟨e, by rw [e], by rw [e]⟩

/-- C6 (witness): the theorem applied to a concrete collapsed object. -/
theorem updateQuantumState_noop_after_collapse_witness :
    QuantumObject.updateQuantumState ctx0 1 1 sampleCollapsed = sampleCollapsed ∧
    (QuantumObject.updateQuantumState ctx0 1 1 sampleCollapsed).observedState =
      sampleCollapsed.observedState ∧
    (QuantumObject.updateQuantumState ctx0 1 1 sampleCollapsed).superpositionFactor =
      sampleCollapsed.superpositionFactor :=
  updateQuantumState_noop_after_collapse ctx0 1 1 sampleCollapsed (by decide)

/-- C3: the energy stays in `[0, maxEnergy]`: with nonnegative `delta` and the
default rates (drain 15/s, recharge 8/s, max 100 — the constructor's values),
an active step sets `energy = max 0 (energy - drainRate * delta)` and forces
observer mode off when that clamped value reaches 0, and an inactive step
sets `energy = min maxEnergy (energy + rechargeRate * delta)`. -/
theorem handleObserverModeEnergy_bounds (delta : ℚ) (pThrow : Bool)
    (draws : ℕ → ℚ × ℚ) (s : SysState) (hdelta : 0 ≤ delta)
    (hlo : 0 ≤ s.currentEnergy) (hhi : s.currentEnergy ≤ s.observerModeEnergy)
    (hd : s.energyDrainRate = 15) (hr : s.energyRechargeRate = 8)
    (hm : s.observerModeEnergy = 100) :
    (0 ≤ (QuantumSystem.handleObserverModeEnergy delta pThrow draws s).sys.currentEnergy ∧
      (QuantumSystem.handleObserverModeEnergy delta pThrow draws s).sys.currentEnergy ≤
        s.observerModeEnergy) ∧
    (s.observerMode = true →
      (QuantumSystem.handleObserverModeEnergy delta pThrow draws s).sys.currentEnergy =
        max 0 (s.currentEnergy - s.energyDrainRate * delta) ∧
      (max 0 (s.currentEnergy - s.energyDrainRate * delta) ≤ 0 →
        (QuantumSystem.handleObserverModeEnergy delta pThrow draws s).sys.observerMode =
          false)) ∧
    (s.observerMode = false →
      (QuantumSystem.handleObserverModeEnergy delta pThrow draws s).sys.currentEnergy =
        min s.observerModeEnergy (s.currentEnergy + s.energyRechargeRate * delta)) ∧
    (mkQuantumSystem.energyDrainRate = 15 ∧ mkQuantumSystem.energyRechargeRate = 8 ∧
      mkQuantumSystem.observerModeEnergy = 100) := by
  have hdrain : 0 ≤ s.energyDrainRate * delta := by
    rw [hd]; positivity
  have hrech : 0 ≤ s.energyRechargeRate * delta := by
    rw [hr]; positivity
  have emax : 0 ≤ s.observerModeEnergy := le_trans hlo hhi
  cases hob : s.observerMode with
  | true =>
      have henergy :
          (QuantumSystem.handleObserverModeEnergy delta pThrow draws s).sys.currentEnergy =
            max 0 (s.currentEnergy - s.energyDrainRate * delta) := by
        by_cases hle : max 0 (s.currentEnergy - s.energyDrainRate * delta) ≤ 0
        · simp [QuantumSystem.handleObserverModeEnergy, hob, hle,
            toggleObserverMode_force_currentEnergy]
        · simp [QuantumSystem.handleObserverModeEnergy, hob, hle]
      refine ⟨⟨?_, ?_⟩, fun _ => ⟨henergy, fun hle => ?_⟩, fun hf => ?_, rfl, rfl, rfl⟩
      · rw [henergy]; exact le_max_left 0 _
      · rw [henergy]
        exact max_le emax (le_trans (sub_le_self _ hdrain) hhi)
      · simp [QuantumSystem.handleObserverModeEnergy, hob, hle,
          toggleObserverMode_force_observerMode]
      · simp at hf
  | false =>
      have henergy :
          (QuantumSystem.handleObserverModeEnergy delta pThrow draws s).sys.currentEnergy =
            min s.observerModeEnergy (s.currentEnergy + s.energyRechargeRate * delta) := by
        simp [QuantumSystem.handleObserverModeEnergy, hob]
      refine ⟨⟨?_, ?_⟩, fun hf => ?_, fun _ => henergy, rfl, rfl, rfl⟩
      · rw [henergy]
        exact le_min emax (add_nonneg hlo hrech)
      · rw [henergy]; exact min_le_left _ _
      · simp at hf

/-- C3 (witness): the spec's scenario — full energy, observer mode on, one
10-second step at drain rate 15 clamps the energy to 0 (not negative) and
forces observer mode off. -/
theorem handleObserverModeEnergy_bounds_witness :
    (0 ≤ (QuantumSystem.handleObserverModeEnergy 10 false drawsZero
        { mkQuantumSystem with observerMode := true }).sys.currentEnergy ∧
      (QuantumSystem.handleObserverModeEnergy 10 false drawsZero
        { mkQuantumSystem with observerMode := true }).sys.currentEnergy ≤
        ({ mkQuantumSystem with observerMode := true } : SysState).observerModeEnergy) ∧
    (({ mkQuantumSystem with observerMode := true } : SysState).observerMode = true →
      (QuantumSystem.handleObserverModeEnergy 10 false drawsZero
        { mkQuantumSystem with observerMode := true }).sys.currentEnergy =
        max 0 (({ mkQuantumSystem with observerMode := true } : SysState).currentEnergy -
          ({ mkQuantumSystem with observerMode := true } : SysState).energyDrainRate * 10) ∧
      (max 0 (({ mkQuantumSystem with observerMode := true } : SysState).currentEnergy -
          ({ mkQuantumSystem with observerMode := true } : SysState).energyDrainRate * 10) ≤ 0 →
        (QuantumSystem.handleObserverModeEnergy 10 false drawsZero
          { mkQuantumSystem with observerMode := true }).sys.observerMode = false)) ∧
    (({ mkQuantumSystem with observerMode := true } : SysState).observerMode = false →
      (QuantumSystem.handleObserverModeEnergy 10 false drawsZero
        { mkQuantumSystem with observerMode := true }).sys.currentEnergy =
        min ({ mkQuantumSystem with observerMode := true } : SysState).observerModeEnergy
          (({ mkQuantumSystem with observerMode := true } : SysState).currentEnergy +
            ({ mkQuantumSystem with observerMode := true } : SysState).energyRechargeRate * 10)) ∧
    (mkQuantumSystem.energyDrainRate = 15 ∧ mkQuantumSystem.energyRechargeRate = 8 ∧
      mkQuantumSystem.observerModeEnergy = 100) :=
  handleObserverModeEnergy_bounds 10 false drawsZero
    { mkQuantumSystem with observerMode := true } (by decide) (by decide) (by decide)
    rfl rfl rfl

/-- C4: calling `toggleObserverMode()` with no argument: when observer mode is off
and the energy is depleted it is a silent no-op (state unchanged, no
broadcast); otherwise it flips the mode — an actual state change — and
broadcasts `setObserverMode(newState)` to every registered object,
synchronously in registry order. -/
theorem toggleObserverMode_noArg_gate_broadcast (pThrow : Bool)
    (draws : ℕ → ℚ × ℚ) (s : SysState) :
    (s.observerMode = false ∧ s.currentEnergy ≤ 0 →
      QuantumSystem.toggleObserverMode none pThrow draws s =
        { sys := s, calls := [], effects := [], logs := [] }) ∧
    (¬ (s.observerMode = false ∧ s.currentEnergy ≤ 0) →
      (QuantumSystem.toggleObserverMode none pThrow draws s).sys.observerMode =
          !s.observerMode ∧
        (QuantumSystem.toggleObserverMode none pThrow draws s).sys.observerMode ≠
          s.observerMode ∧
        (QuantumSystem.toggleObserverMode none pThrow draws s).calls =
          s.quantumObjects.map fun o => (o.id, !s.observerMode)) := by
  constructor
  · intro hg
    simp [QuantumSystem.toggleObserverMode, hg]
  · intro hg
    refine ⟨?_, ?_, ?_⟩
    · simp [QuantumSystem.toggleObserverMode, hg]
    · simp [QuantumSystem.toggleObserverMode, hg]
    · simp [QuantumSystem.toggleObserverMode, hg, broadcastObserverMode_calls]

/-- C4 (witness): concretely, with zero energy and observer mode off the
no-argument toggle is a silent no-op, and with full energy it flips the mode
and broadcasts to the one registered object. -/
theorem toggleObserverMode_noArg_gate_broadcast_witness :
    QuantumSystem.toggleObserverMode none false drawsZero
        { mkQuantumSystem with currentEnergy := 0 } =
      { sys := { mkQuantumSystem with currentEnergy := 0 },
        calls := [], effects := [], logs := [] } ∧
    (QuantumSystem.toggleObserverMode none false drawsZero
        { mkQuantumSystem with quantumObjects := [{ id := 7, state := sampleObj }] }).calls =
      [(7, true)] := by
  constructor
  · exact (toggleObserverMode_noArg_gate_broadcast false drawsZero
      { mkQuantumSystem with currentEnergy := 0 }).1 ⟨rfl, by decide⟩
  · have h := (toggleObserverMode_noArg_gate_broadcast false drawsZero
      { mkQuantumSystem with quantumObjects := [{ id := 7, state := sampleObj }] }).2
      (by decide)
    simpa [mkQuantumSystem] using h.2.2

/-- The obstacle of C7's scenario: freshly constructed, then force-collapsed
with `forcedState = 1`. -/
def obstacleForcedOne (position : Vec3) (size r rc : ℚ) : ObstacleState :=
  (QuantumObstacle.collapse (some 1) rc false (mkQuantumObstacle position size r)).state

/-- C7: an obstacle forced-collapsed with `forcedState = 1` reports
`isHarmful = true`; its `checkPlayerCollision` holds exactly when the
distance to the player is strictly below `size / 2 + playerRadius` (so it is
false at exactly the boundary); a positive collision answer entails both
`isHarmful = true` and `observedState = 1`; and the query mutates nothing. -/
theorem obstacle_forcedOne_collision (position : Vec3) (size r rc : ℚ)
    (playerPosition : Vec3) (playerRadius : ℚ) :
    (obstacleForcedOne position size r rc).isHarmful = some true ∧
    (QuantumObstacle.checkPlayerCollision (obstacleForcedOne position size r rc)
        playerPosition playerRadius ↔
      Real.sqrt ((Vec3.sqDist position playerPosition : ℚ) : ℝ) <
        ((size / 2 + playerRadius : ℚ) : ℝ)) ∧
    (Real.sqrt ((Vec3.sqDist position playerPosition : ℚ) : ℝ) =
        ((size / 2 + playerRadius : ℚ) : ℝ) →
      ¬ QuantumObstacle.checkPlayerCollision (obstacleForcedOne position size r rc)
          playerPosition playerRadius) ∧
    (QuantumObstacle.checkPlayerCollision (obstacleForcedOne position size r rc)
        playerPosition playerRadius →
      (obstacleForcedOne position size r rc).isHarmful = some true ∧
        (obstacleForcedOne position size r rc).core.observedState = some 1) ∧
    (QuantumObstacle.checkPlayerCollisionS (obstacleForcedOne position size r rc)
        playerPosition playerRadius).1 = obstacleForcedOne position size r rc := by
  refine ⟨rfl, ⟨fun h => h.2, fun h => ⟨rfl, h⟩⟩, ?_, fun h => ⟨rfl, h.1⟩, rfl⟩
  intro heq hcol
  have hlt : Real.sqrt ((Vec3.sqDist position playerPosition : ℚ) : ℝ) <
      ((size / 2 + playerRadius : ℚ) : ℝ) := hcol.2
  rw [heq] at hlt
  exact lt_irrefl _ hlt

/-- C7 (witness): a concrete obstacle of size 4 forced to state 1, with
player radius 1 (collision radius 3): a player at distance 1 collides, a
player at distance exactly 3 does not. -/
theorem obstacle_forcedOne_collision_witness :
    QuantumObstacle.checkPlayerCollision
      (obstacleForcedOne { x := 0, y := 0, z := 0 } 4 0 0) { x := 1, y := 0, z := 0 } 1 ∧
    ¬ QuantumObstacle.checkPlayerCollision
      (obstacleForcedOne { x := 0, y := 0, z := 0 } 4 0 0) { x := 3, y := 0, z := 0 } 1 := by
  constructor
  · apply (obstacle_forcedOne_collision { x := 0, y := 0, z := 0 } 4 0 0
      { x := 1, y := 0, z := 0 } 1).2.1.mpr
    have h1 : (Vec3.sqDist { x := 0, y := 0, z := 0 } { x := 1, y := 0, z := 0 } : ℚ) = 1 := by
      norm_num [Vec3.sqDist]
    rw [h1]
    have : Real.sqrt ((1 : ℚ) : ℝ) = 1 := by
      push_cast
      exact Real.sqrt_one
    rw [this]
    norm_num
  · apply (obstacle_forcedOne_collision { x := 0, y := 0, z := 0 } 4 0 0
      { x := 3, y := 0, z := 0 } 1).2.2.1
    have h9 : (Vec3.sqDist { x := 0, y := 0, z := 0 } { x := 3, y := 0, z := 0 } : ℚ) = 9 := by
      norm_num [Vec3.sqDist]
    rw [h9]
    have h93 : Real.sqrt ((9 : ℚ) : ℝ) = 3 := by
      push_cast
      rw [show (9 : ℝ) = 3 ^ 2 by norm_num]
      exact Real.sqrt_sq (by norm_num)
    rw [h93]
    norm_num

/-- C8: the operation `unregisterQuantumObject` is idempotent-safe: on an absent object it
is a no-op (and, being a total function, raises nothing); on a present
object it removes exactly the first occurrence; and when the object occurs
at most once (the registry invariant), unregistering twice equals
unregistering once. -/
theorem unregisterQuantumObject_idempotent (x : ℕ) (s : SysState) :
    ((∀ o ∈ s.quantumObjects, o.id ≠ x) → QuantumSystem.unregisterQuantumObject x s = s) ∧
    (∀ (pre : List QObj) (o : QObj) (post : List QObj), o.id = x →
      (∀ p ∈ pre, p.id ≠ x) → s.quantumObjects = pre ++ o :: post →
      (QuantumSystem.unregisterQuantumObject x s).quantumObjects = pre ++ post) ∧
    (countId x s.quantumObjects ≤ 1 →
      QuantumSystem.unregisterQuantumObject x (QuantumSystem.unregisterQuantumObject x s) =
        QuantumSystem.unregisterQuantumObject x s) := by
  refine ⟨?_, ?_, ?_⟩
  · intro habs
    simp [QuantumSystem.unregisterQuantumObject, indexOfId_eq_none_of_absent x _ habs]
  · intro pre o post ho hpre hsplit
    have hidx : indexOfId x (pre ++ o :: post) = some pre.length :=
      indexOfId_append_middle x pre o post ho hpre
    simp [QuantumSystem.unregisterQuantumObject, hsplit, hidx, eraseIdx_append_middle]
  · intro hcount
    cases hidx : indexOfId x s.quantumObjects with
    | none => simp [QuantumSystem.unregisterQuantumObject, hidx]
    | some i =>
        have h1 : countId x (s.quantumObjects.eraseIdx i) + 1 = countId x s.quantumObjects :=
          countId_eraseIdx x s.quantumObjects i hidx
        have h0 : countId x (s.quantumObjects.eraseIdx i) = 0 := by omega
        have hnone : indexOfId x (s.quantumObjects.eraseIdx i) = none :=
          (countId_zero_iff x _).mp h0
        simp [QuantumSystem.unregisterQuantumObject, hidx, hnone]

/-- A one-object system used by the C8 witness. -/
def sysOne : SysState :=
  { mkQuantumSystem with quantumObjects := [{ id := 1, state := sampleObj }] }

/-- C8 (witness): on the concrete one-object registry, unregistering an
absent object is a no-op and unregistering the present object twice equals
unregistering it once. -/
theorem unregisterQuantumObject_idempotent_witness :
    QuantumSystem.unregisterQuantumObject 2 sysOne = sysOne ∧
    QuantumSystem.unregisterQuantumObject 1 (QuantumSystem.unregisterQuantumObject 1 sysOne) =
      QuantumSystem.unregisterQuantumObject 1 sysOne :=
  ⟨(unregisterQuantumObject_idempotent 2 sysOne).1 (by decide),
    (unregisterQuantumObject_idempotent 1 sysOne).2.2 (by decide)⟩

/-- C9: the method `setObserverMode` has no effect when `active` is false or when the
object is already collapsed; when the 30% roll triggers a forced collapse
and that collapse throws, the error is caught and logged and the call still
returns normally (carrying the partially-mutated state, as JS does); and the
broadcast loop processes every registered object no matter what the
per-object calls do. -/
theorem setObserverMode_error_containment :
    (∀ (roll r : ℚ) (pThrow : Bool) (o : ObjState),
      QuantumObject.setObserverMode false roll r pThrow o =
        { state := o, effects := [], logs := [] }) ∧
    (∀ (active : Bool) (roll r : ℚ) (pThrow : Bool) (o : ObjState), o.observedState ≠ none →
      QuantumObject.setObserverMode active roll r pThrow o =
        { state := o, effects := [], logs := [] }) ∧
    (∀ (roll r : ℚ) (o : ObjState), o.observedState = none → roll < 0.3 →
      QuantumObject.setObserverMode true roll r true o =
        { state := (QuantumObject.collapse none r true o).state
          effects := []
          logs := ["Error collapsing quantum object: createCollapseEffect failed"] }) ∧
    (∀ (active pThrow : Bool) (draws : ℕ → ℚ × ℚ) (objs : List QObj),
      (broadcastObserverMode active pThrow objs draws).objs.length = objs.length) := by
  refine ⟨?_, ?_, ?_, ?_⟩
  · intro roll r pThrow o
    simp [QuantumObject.setObserverMode]
  · intro active roll r pThrow o h
    simp [QuantumObject.setObserverMode, h]
  · intro roll r o ho hroll
    simp [QuantumObject.setObserverMode, ho, hroll, QuantumObject.collapse]
  · intro active pThrow draws objs
    exact broadcastObserverMode_objs_length active pThrow draws objs

/-- C9 (witness): a two-object broadcast with an always-throwing particle
collaborator and a roll that always triggers the forced collapse: both
objects are still processed and both errors are logged. -/
theorem setObserverMode_error_containment_witness :
    (broadcastObserverMode true true
        [{ id := 1, state := sampleObj }, { id := 2, state := sampleObj }] drawsZero).objs.length = 2 ∧
    (broadcastObserverMode true true
        [{ id := 1, state := sampleObj }, { id := 2, state := sampleObj }] drawsZero).logs =
      ["Error collapsing quantum object: createCollapseEffect failed",
        "Error collapsing quantum object: createCollapseEffect failed"] := by
  refine ⟨setObserverMode_error_containment.2.2.2 true true drawsZero _, ?_⟩
  have h1 := setObserverMode_error_containment.2.2.1 0 0 sampleObj rfl (by norm_num)
  simp [broadcastObserverMode, drawsZero, h1]

/-- C10: a freshly constructed `QuantumHazard` is still superposed
(`observedState = none`) yet already has `isHarmful = true`, so
`checkPlayerCollision` already holds exactly when the distance to the player
is strictly below `size / 2 + playerRadius` — harmfulness does not wait for
a collapse to state 1. -/
theorem hazard_harmful_while_superposed (position : Vec3) (size r : ℚ)
    (playerPosition : Vec3) (playerRadius : ℚ) :
    (mkQuantumHazard position size r).core.observedState = none ∧
    (mkQuantumHazard position size r).isHarmful = true ∧
    (QuantumHazard.checkPlayerCollision (mkQuantumHazard position size r)
        playerPosition playerRadius ↔
      Real.sqrt ((Vec3.sqDist position playerPosition : ℚ) : ℝ) <
        ((size / 2 + playerRadius : ℚ) : ℝ)) :=
  ⟨rfl, rfl, ⟨fun h => h.2, fun h => ⟨rfl, h⟩⟩⟩

/-- C10 (witness): a concrete never-collapsed hazard of size 4 already
collides with a player of radius 1 at distance 1. -/
theorem hazard_harmful_while_superposed_witness :
    (mkQuantumHazard { x := 0, y := 0, z := 0 } 4 0).core.observedState = none ∧
    QuantumHazard.checkPlayerCollision (mkQuantumHazard { x := 0, y := 0, z := 0 } 4 0)
      { x := 1, y := 0, z := 0 } 1 := by
  refine ⟨rfl, ?_⟩
  apply (hazard_harmful_while_superposed { x := 0, y := 0, z := 0 } 4 0
    { x := 1, y := 0, z := 0 } 1).2.2.mpr
  have h1 : (Vec3.sqDist { x := 0, y := 0, z := 0 } { x := 1, y := 0, z := 0 } : ℚ) = 1 := by
    norm_num [Vec3.sqDist]
  rw [h1]
  have hs : Real.sqrt ((1 : ℚ) : ℝ) = 1 := by
    push_cast
    exact Real.sqrt_one
  rw [hs]
  norm_num
